import Mathlib

/-
Shallow embedding of the linux-traffic-checker monthly accounting engine.

The source is a small Go program; the scheduler-based variant (the one the
design document describes) owns the accounting logic in
`SendMonthlyNetStats`, with helpers `readNetworkBytes` (counter source),
`loadStats`/`saveStats` (persistence) and `formatBytes` (human-readable
byte formatter).

Modelling choices:
- `big.Int` counters become `Int` (Go `math/big` is arbitrary precision).
- Persistence is explicit: the prior state file content is an
  `Option Stats` input (`none` = file absent, the `isFirstRun` flag of
  `loadStats`), and the run returns the resulting file content.  Whether a
  `saveStats` call succeeds is the boolean input `saveOk`; per run at most
  one save is attempted, so one boolean suffices.
- `os.Exit(1)` on a failed save becomes the outcome `fatal`; reaching the
  `sendToDiscord` call is recorded in the `notified` flag (delivery itself
  is an external collaborator and is not modelled).
- `/proc/net/dev` becomes the list of lines of that file, and
  `strings.Contains`, `strings.Fields` and `strconv.ParseInt` are modelled
  on character lists.
- `formatBytes` works on exact rationals: the Go code divides a binary
  big.Float (resp. float64) by 1024, which is exact mantissa-preserving
  scaling, and compares; `%.2f` rounds ties to even.  All byte counts the
  program formats are non-negative, and the concrete values the properties
  mention are exactly representable, so the rational model coincides with
  the floating-point code on them.
-/

namespace TrafficChecker

/-- Go struct `Stats`: the persisted state file record
(`month` string, `rx`/`tx` big.Int counters). -/
structure Stats where
  month : String
  rx : Int
  tx : Int
  deriving DecidableEq, Repr

/-- The decision the engine takes on one run. -/
inductive Action where
  | skip
  | resetDetected
  | report (usedRX usedTX usedTotal : Int)
  deriving DecidableEq, Repr

/-- How the invocation ends: `fatal` is `os.Exit(1)` after a failed
`saveStats` on a checked path; `done a` is a normal return. -/
inductive Outcome where
  | fatal
  | done (a : Action)
  deriving DecidableEq, Repr

/-- Observable result of one engine run: the outcome, the state file
content after the run, and whether the run reached `sendToDiscord`. -/
structure RunResult where
  outcome : Outcome
  finalState : Option Stats
  notified : Bool
  deriving DecidableEq, Repr

/-- The tail of `SendMonthlyNetStats` after the month-rollover block:
the `isFirstRun` early return, the delta computation, the counter-reset
branch (whose `saveStats` error is discarded by the code), and the
normal report path. `stats` is the in-memory stats after the rollover
block, `disk` the file content at that point. -/
def afterBaseline (stats : Stats) (disk : Option Stats) (isFirstRun : Bool)
    (snapRX snapTX : Int) (monthKey : String) (saveOk : Bool) : RunResult :=
  if isFirstRun then
    { outcome := .done .skip, finalState := disk, notified := false }
  else
    let usedRX := snapRX - stats.rx
    let usedTX := snapTX - stats.tx
    if usedRX < 0 ∨ usedTX < 0 then
      { outcome := .done .resetDetected
        finalState :=
          if saveOk then some { month := monthKey, rx := snapRX, tx := snapTX } else disk
        notified := false }
    else
      { outcome := .done (.report usedRX usedTX (usedRX + usedTX))
        finalState := disk
        notified := true }

/-- Go `SendMonthlyNetStats`, as a function of the loaded prior state
(`none` when the stats file does not exist), the counter snapshot, the
current month key (`time.Now().Format("2006-01")`) and whether a
`saveStats` call would succeed. -/
def SendMonthlyNetStats (prior : Option Stats) (snapRX snapTX : Int)
    (monthKey : String) (saveOk : Bool) : RunResult :=
  let stats := prior.getD { month := "", rx := 0, tx := 0 }
  if stats.month ≠ monthKey then
    if saveOk then
      afterBaseline { month := monthKey, rx := snapRX, tx := snapTX }
        (some { month := monthKey, rx := snapRX, tx := snapTX })
        prior.isNone snapRX snapTX monthKey saveOk
    else
      { outcome := .fatal, finalState := prior, notified := false }
  else
    afterBaseline stats prior prior.isNone snapRX snapTX monthKey saveOk

/-! ### Byte formatter (`formatBytes`) -/

/-- Round a rational to the nearest integer, ties to even, as Go's
`%.2f` formatting does on the scaled value. -/
def roundHalfEven (q : ℚ) : Int :=
  if q - ⌊q⌋ = (1 : ℚ) / 2 then (if ⌊q⌋ % 2 = 0 then ⌊q⌋ else ⌊q⌋ + 1)
  else round q

/-- Go `fmt.Sprintf("%.2f", v)` for a non-negative value: the value
rounded to two decimals (integer part, dot, exactly two digits). -/
def formatFixed2 (q : ℚ) : String :=
  toString (roundHalfEven (q * 100) / 100) ++ "." ++
    (if roundHalfEven (q * 100) % 100 < 10
     then "0" ++ toString (roundHalfEven (q * 100) % 100)
     else toString (roundHalfEven (q * 100) % 100))

/-- The unit slice of `formatBytes`: `B, KB, MB, GB, TB`;
the code falls through to `PB` after it. -/
def fmtUnits : List String := ["B", "KB", "MB", "GB", "TB"]

/-- The `for _, unit := range units` loop of `formatBytes`: return at the
first unit where the value is below 1024, else divide by 1024 and
continue; after the last unit, report in PB. -/
def formatBytesLoop : ℚ → List String → String
  | fSize, [] => formatFixed2 fSize ++ " PB"
  | fSize, unit :: rest =>
    if fSize < 1024 then formatFixed2 fSize ++ " " ++ unit
    else formatBytesLoop (fSize / 1024) rest

/-- Go `formatBytes`: format a byte count with a binary unit ladder. -/
def formatBytes (n : Int) : String := formatBytesLoop (n : ℚ) fmtUnits

/-! ### Counter source (`readNetworkBytes`) -/

/-- Go `strings.Contains` on character lists. -/
def containsAux (needle : List Char) : List Char → Bool
  | [] => needle.isEmpty
  | c :: rest => needle.isPrefixOf (c :: rest) || containsAux needle rest

/-- Go `strings.Contains hay needle`: substring containment. -/
def strContains (hay needle : String) : Bool :=
  containsAux needle.toList hay.toList

/-- Helper of `fields`: split on whitespace runs, accumulating the
current field reversed. -/
def fieldsAux : List Char → List Char → List String
  | acc, [] => if acc.isEmpty then [] else [String.mk acc.reverse]
  | acc, c :: rest =>
    if c.isWhitespace then
      if acc.isEmpty then fieldsAux [] rest
      else String.mk acc.reverse :: fieldsAux [] rest
    else fieldsAux (c :: acc) rest

/-- Go `strings.Fields`: the whitespace-separated fields of a line. -/
def fields (s : String) : List String := fieldsAux [] s.toList

/-- Decimal digit accumulation for `parseInt64`; fails on any
non-digit character. -/
def parseDigitsAux : Nat → List Char → Option Nat
  | acc, [] => some acc
  | acc, c :: rest =>
    if c.isDigit then parseDigitsAux (acc * 10 + (c.toNat - 48)) rest
    else none

/-- Core of `parseInt64`: digits after an optional sign, with the
int64 range check `strconv.ParseInt(_, 10, 64)` performs. -/
def parseIntCore (neg : Bool) (cs : List Char) : Option Int :=
  match cs with
  | [] => none
  | _ :: _ =>
    match parseDigitsAux 0 cs with
    | none => none
    | some v =>
      let x : Int := if neg then -(v : Int) else (v : Int)
      if -(2 ^ 63) ≤ x ∧ x ≤ 2 ^ 63 - 1 then some x else none

/-- Go `strconv.ParseInt(s, 10, 64)`: optional sign, decimal digits,
64-bit signed range. -/
def parseInt64 (s : String) : Option Int :=
  match s.toList with
  | [] => none
  | '-' :: rest => parseIntCore true rest
  | '+' :: rest => parseIntCore false rest
  | cs => parseIntCore false cs

/-- The two error shapes `readNetworkBytes` can return: the
interface-not-found error, or a `strconv.ParseInt` error. -/
inductive NetErr where
  | notFound
  | parseError
  deriving DecidableEq, Repr

instance : DecidableEq (Except NetErr (Int × Int)) := fun x y =>
  match x, y with
  | .error a, .error b =>
    match decEq a b with
    | isTrue h => isTrue (by rw [h])
    | isFalse h => isFalse (fun hc => h (Except.error.inj hc))
  | .error _, .ok _ => isFalse (fun hc => Except.noConfusion hc)
  | .ok _, .error _ => isFalse (fun hc => Except.noConfusion hc)
  | .ok a, .ok b =>
    match decEq a b with
    | isTrue h => isTrue (by rw [h])
    | isFalse h => isFalse (fun hc => h (Except.ok.inj hc))

/-- Parsing of one matched `/proc/net/dev` line: field 1 is the rx byte
counter, field 9 the tx byte counter; a parse failure aborts the whole
call with the parse error. -/
def parseNetLine (line : String) : Except NetErr (Int × Int) :=
  let parts := fields line
  match parseInt64 (parts.getD 1 "") with
  | none => .error .parseError
  | some rx =>
    match parseInt64 (parts.getD 9 "") with
    | none => .error .parseError
    | some tx => .ok (rx, tx)

/-- Go `readNetworkBytes` over the lines of `/proc/net/dev`: scan for a
line containing the interface name as a substring; skip it if it has
fewer than 10 fields; otherwise parse and return fields 1 and 9.  If no
line qualifies, return the not-found error. -/
def readNetworkBytes (interfaceName : String) : List String → Except NetErr (Int × Int)
  | [] => .error .notFound
  | line :: rest =>
    if strContains line interfaceName then
      if (fields line).length < 10 then readNetworkBytes interfaceName rest
      else parseNetLine line
    else readNetworkBytes interfaceName rest

/-- A line qualifies when it contains the interface name as a substring
and has at least 10 whitespace-separated fields. -/
def lineQualifies (interfaceName line : String) : Bool :=
  strContains line interfaceName && decide (10 ≤ (fields line).length)

/-! ### Helper lemmas about the engine paths -/

theorem run_first_ok (rx tx : Int) (m : String) (hm : m ≠ "") :
    SendMonthlyNetStats none rx tx m true =
      { outcome := .done .skip,
        finalState := some { month := m, rx := rx, tx := tx },
        notified := false } := by
  simp [SendMonthlyNetStats, afterBaseline, Ne.symm hm]

theorem run_first_fail (rx tx : Int) (m : String) (hm : m ≠ "") :
    SendMonthlyNetStats none rx tx m false =
      { outcome := .fatal, finalState := none, notified := false } := by
  simp [SendMonthlyNetStats, Ne.symm hm]

theorem run_rollover_ok (p : Stats) (rx tx : Int) (m : String) (hm : p.month ≠ m) :
    SendMonthlyNetStats (some p) rx tx m true =
      { outcome := .done (.report 0 0 0),
        finalState := some { month := m, rx := rx, tx := tx },
        notified := true } := by
  simp [SendMonthlyNetStats, afterBaseline, hm]

theorem run_rollover_fail (p : Stats) (rx tx : Int) (m : String) (hm : p.month ≠ m) :
    SendMonthlyNetStats (some p) rx tx m false =
      { outcome := .fatal, finalState := some p, notified := false } := by
  simp [SendMonthlyNetStats, hm]

theorem run_reset (p : Stats) (rx tx : Int) (m : String) (saveOk : Bool)
    (hm : p.month = m) (hlt : rx < p.rx ∨ tx < p.tx) :
    SendMonthlyNetStats (some p) rx tx m saveOk =
      { outcome := .done .resetDetected,
        finalState :=
          if saveOk then some { month := m, rx := rx, tx := tx } else some p,
        notified := false } := by
  subst hm
  rcases hlt with h | h
  · simp [SendMonthlyNetStats, afterBaseline, h]
  · simp [SendMonthlyNetStats, afterBaseline, h]

theorem run_normal (p : Stats) (rx tx : Int) (m : String) (saveOk : Bool)
    (hm : p.month = m) (hr : p.rx ≤ rx) (ht : p.tx ≤ tx) :
    SendMonthlyNetStats (some p) rx tx m saveOk =
      { outcome := .done (.report (rx - p.rx) (tx - p.tx) ((rx - p.rx) + (tx - p.tx))),
        finalState := some p,
        notified := true } := by
  subst hm
  simp [SendMonthlyNetStats, afterBaseline, hr, ht]

/-! ### Helper lemmas about the formatter -/

theorem str_append_assoc (a b c : String) : a ++ b ++ c = a ++ (b ++ c) := by
  rcases a with ⟨da⟩
  rcases b with ⟨db⟩
  rcases c with ⟨dc⟩
  show String.mk (da ++ db ++ dc) = String.mk (da ++ (db ++ dc))
  rw [List.append_assoc]

theorem roundHalfEven_intCast (n : Int) : roundHalfEven (n : ℚ) = n := by
  unfold roundHalfEven
  rw [Int.floor_intCast, sub_self, if_neg (by norm_num), round_intCast]

theorem formatFixed2_int (n : Int) : formatFixed2 (n : ℚ) = toString n ++ "." ++ "00" := by
  unfold formatFixed2
  have h1 : ((n : ℚ) * 100) = ((n * 100 : Int) : ℚ) := by push_cast; ring
  rw [h1, roundHalfEven_intCast]
  have h2 : (n * 100 : Int) / 100 = n := by omega
  have h3 : (n * 100 : Int) % 100 = 0 := by omega
  rw [h2, h3, if_pos (by norm_num)]
  have h4 : toString (0 : Int) = "0" := by decide
  rw [h4]
  rw [show ("0" ++ "0" : String) = "00" from by decide]

theorem formatBytes_lt1024 (n : Int) (h : (n : ℚ) < 1024) :
    formatBytes n = formatFixed2 (n : ℚ) ++ " B" := by
  simp only [formatBytes, fmtUnits, formatBytesLoop]
  rw [if_pos h, str_append_assoc]
  rw [show (" " ++ "B" : String) = " B" from by decide]

theorem formatBytes_pb (n : Int) (h : (1024 : ℚ) ^ 5 ≤ (n : ℚ)) :
    formatBytes n = formatFixed2 ((n : ℚ) / 1024 ^ 5) ++ " PB" := by
  have g0 : ¬ (n : ℚ) < 1024 := by
    rw [not_lt]
    calc (1024 : ℚ) ≤ 1024 ^ 5 := by norm_num
    _ ≤ (n : ℚ) := h
  have g1 : ¬ (n : ℚ) / 1024 < 1024 := by
    rw [not_lt, le_div_iff₀ (by norm_num : (0 : ℚ) < 1024)]
    calc (1024 : ℚ) * 1024 = 1024 ^ 2 := by ring
    _ ≤ 1024 ^ 5 := by norm_num
    _ ≤ (n : ℚ) := h
  have g2 : ¬ (n : ℚ) / 1024 / 1024 < 1024 := by
    rw [not_lt, div_div, le_div_iff₀ (by norm_num : (0 : ℚ) < 1024 * 1024)]
    calc (1024 : ℚ) * (1024 * 1024) = 1024 ^ 3 := by ring
    _ ≤ 1024 ^ 5 := by norm_num
    _ ≤ (n : ℚ) := h
  have g3 : ¬ (n : ℚ) / 1024 / 1024 / 1024 < 1024 := by
    rw [not_lt, div_div, div_div, le_div_iff₀ (by norm_num : (0 : ℚ) < 1024 * (1024 * 1024))]
    calc (1024 : ℚ) * (1024 * (1024 * 1024)) = 1024 ^ 4 := by ring
    _ ≤ 1024 ^ 5 := by norm_num
    _ ≤ (n : ℚ) := h
  have g4 : ¬ (n : ℚ) / 1024 / 1024 / 1024 / 1024 < 1024 := by
    rw [not_lt, div_div, div_div, div_div,
      le_div_iff₀ (by norm_num : (0 : ℚ) < 1024 * (1024 * (1024 * 1024)))]
    calc (1024 : ℚ) * (1024 * (1024 * (1024 * 1024))) = 1024 ^ 5 := by ring
    _ ≤ (n : ℚ) := h
  have e : (n : ℚ) / 1024 / 1024 / 1024 / 1024 / 1024 = (n : ℚ) / 1024 ^ 5 := by
    ring
  simp only [formatBytes, fmtUnits, formatBytesLoop]
  rw [if_neg g0, if_neg g1, if_neg g2, if_neg g3, if_neg g4, e]

/-! ### Helper lemmas about the counter source -/

theorem parseNetLine_ne_notFound (line : String) :
    parseNetLine line ≠ .error .notFound := by
  simp only [parseNetLine]
  split
  · exact fun h => NetErr.noConfusion (Except.error.inj h)
  · split
    · exact fun h => NetErr.noConfusion (Except.error.inj h)
    · exact fun h => Except.noConfusion h

theorem readNetworkBytes_eq_find (name : String) (lines : List String) :
    readNetworkBytes name lines =
      (match lines.find? (lineQualifies name) with
       | some l => parseNetLine l
       | none => .error .notFound) := by
  induction lines with
  | nil => rfl
  | cons line rest ih =>
    simp only [readNetworkBytes, List.find?]
    by_cases hc : strContains line name = true
    · by_cases hl : (fields line).length < 10
      · have hq : lineQualifies name line = false := by
          simp [lineQualifies, hc, Nat.not_le.mpr hl]
        rw [if_pos hc, if_pos hl, hq]
        exact ih
      · have hq : lineQualifies name line = true := by
          simp [lineQualifies, hc, Nat.le_of_not_lt hl]
        rw [if_pos hc, if_neg hl, hq]
    · have hq : lineQualifies name line = false := by
        simp [lineQualifies, hc]
      rw [if_neg hc, hq]
      exact ih

/-! ### Claim theorems -/

/-- C1 (counterexample): with a stored period different from the current
one, the run does not return `Skip` and it does send a notification: the
claim "returns Skip without sending any notification" fails at this
concrete input. -/
theorem C1_rollover_skip_counterexample :
    (SendMonthlyNetStats (some { month := "2025-01", rx := 0, tx := 0 })
        5 5 "2025-02" true).notified = true
  ∧ (SendMonthlyNetStats (some { month := "2025-01", rx := 0, tx := 0 })
        5 5 "2025-02" true).outcome ≠ .done .skip := by
  decide

/-- C1 (amended): on a period rollover (prior state exists, stored period
differs from the current one, save succeeds), the engine persists a new
state with period = currentPeriod and baseline = the current snapshot, but
then proceeds to the normal path and sends a zero-usage report
(`Report 0 0 0`) rather than returning `Skip`, for every snapshot value. -/
theorem C1_rollover_rebaselines_and_reports_zero (p : Stats) (rx tx : Int)
    (m : String) (hm : p.month ≠ m) :
    SendMonthlyNetStats (some p) rx tx m true =
      { outcome := .done (.report 0 0 0),
        finalState := some { month := m, rx := rx, tx := tx },
        notified := true } :=
  run_rollover_ok p rx tx m hm

/-- Witness for C1 at a concrete rollover input. -/
theorem C1_rollover_rebaselines_and_reports_zero_witness :
    SendMonthlyNetStats (some { month := "2024-12", rx := 7, tx := 9 })
        100 200 "2025-01" true =
      { outcome := .done (.report 0 0 0),
        finalState := some { month := "2025-01", rx := 100, tx := 200 },
        notified := true } :=
  C1_rollover_rebaselines_and_reports_zero
    { month := "2024-12", rx := 7, tx := 9 } 100 200 "2025-01" (by decide)

/-- C2 (counterexample): two consecutive runs in the same period both send
a notification, so "at most one invocation in a same-period sequence sends
a notification" fails at this concrete two-run sequence. -/
theorem C2_at_most_once_counterexample :
    (SendMonthlyNetStats (some { month := "2025-03", rx := 0, tx := 0 })
        10 10 "2025-03" true).notified = true
  ∧ (SendMonthlyNetStats
        ((SendMonthlyNetStats (some { month := "2025-03", rx := 0, tx := 0 })
            10 10 "2025-03" true).finalState)
        20 20 "2025-03" true).notified = true := by
  decide

/-- C2 (amended): within one period the notification is not deduplicated:
every same-period run on the normal accounting path sends a notification
and leaves the state unchanged, so each further same-period normal run
sends again — the code gives no at-most-once-per-period guarantee across
repeated invocations. -/
theorem C2_same_period_runs_each_notify (p : Stats) (rx1 tx1 rx2 tx2 : Int)
    (m : String) (hm : p.month = m)
    (h1r : p.rx ≤ rx1) (h1t : p.tx ≤ tx1)
    (h2r : p.rx ≤ rx2) (h2t : p.tx ≤ tx2) :
    (SendMonthlyNetStats (some p) rx1 tx1 m true).notified = true
  ∧ (SendMonthlyNetStats
        ((SendMonthlyNetStats (some p) rx1 tx1 m true).finalState)
        rx2 tx2 m true).notified = true := by
  rw [run_normal p rx1 tx1 m true hm h1r h1t]
  exact ⟨rfl, by rw [run_normal p rx2 tx2 m true hm h2r h2t]⟩

/-- Witness for C2 at a concrete same-period two-run sequence. -/
theorem C2_same_period_runs_each_notify_witness :
    (SendMonthlyNetStats (some { month := "2025-06", rx := 1, tx := 2 })
        5 6 "2025-06" true).notified = true
  ∧ (SendMonthlyNetStats
        ((SendMonthlyNetStats (some { month := "2025-06", rx := 1, tx := 2 })
            5 6 "2025-06" true).finalState)
        7 8 "2025-06" true).notified = true :=
  C2_same_period_runs_each_notify { month := "2025-06", rx := 1, tx := 2 }
    5 6 7 8 "2025-06" rfl (by decide) (by decide) (by decide) (by decide)

/-- C3: in the stored period, when the snapshot drops below the baseline
in rx or tx, the engine returns `ResetDetected`, does not notify, and
persists a new baseline equal to the snapshot with the period unchanged. -/
theorem C3_counter_reset_rebaselines (p : Stats) (rx tx : Int) (m : String)
    (hm : p.month = m) (hlt : rx < p.rx ∨ tx < p.tx) :
    SendMonthlyNetStats (some p) rx tx m true =
      { outcome := .done .resetDetected,
        finalState := some { month := m, rx := rx, tx := tx },
        notified := false } := by
  rw [run_reset p rx tx m true hm hlt]
  simp

/-- Witness for C3 at the design document's scenario: baseline (900, 900),
snapshot (100, 900). -/
theorem C3_counter_reset_rebaselines_witness :
    SendMonthlyNetStats (some { month := "2025-07", rx := 900, tx := 900 })
        100 900 "2025-07" true =
      { outcome := .done .resetDetected,
        finalState := some { month := "2025-07", rx := 100, tx := 900 },
        notified := false } :=
  C3_counter_reset_rebaselines { month := "2025-07", rx := 900, tx := 900 }
    100 900 "2025-07" rfl (Or.inl (by decide))

/-- C4: on the first-ever invocation (no persisted state), the engine
returns `Skip` without notifying and persists a baseline equal to the
current snapshot with the current period (the month key produced by the
caller is never the empty string). -/
theorem C4_first_run_skip_and_baseline (rx tx : Int) (m : String) (hm : m ≠ "") :
    SendMonthlyNetStats none rx tx m true =
      { outcome := .done .skip,
        finalState := some { month := m, rx := rx, tx := tx },
        notified := false } :=
  run_first_ok rx tx m hm

/-- Witness for C4 at a concrete first run. -/
theorem C4_first_run_skip_and_baseline_witness :
    SendMonthlyNetStats none 42 17 "2025-08" true =
      { outcome := .done .skip,
        finalState := some { month := "2025-08", rx := 42, tx := 17 },
        notified := false } :=
  C4_first_run_skip_and_baseline 42 17 "2025-08" (by decide)

/-- C5: on the normal accounting path (same period, snapshot at or above
the baseline in both counters) the persisted state is not rewritten,
whatever a save would have done: the stored record after the run is the
prior record. -/
theorem C5_normal_path_state_unchanged (p : Stats) (rx tx : Int) (m : String)
    (saveOk : Bool) (hm : p.month = m) (hr : p.rx ≤ rx) (ht : p.tx ≤ tx) :
    (SendMonthlyNetStats (some p) rx tx m saveOk).finalState = some p := by
  rw [run_normal p rx tx m saveOk hm hr ht]

/-- Witness for C5 at a concrete normal run. -/
theorem C5_normal_path_state_unchanged_witness :
    (SendMonthlyNetStats (some { month := "2025-09", rx := 3, tx := 4 })
        30 40 "2025-09" false).finalState =
      some { month := "2025-09", rx := 3, tx := 4 } :=
  C5_normal_path_state_unchanged { month := "2025-09", rx := 3, tx := 4 }
    30 40 "2025-09" false rfl (by decide) (by decide)

/-- C6 (counterexample): on the counter-reset path the `saveStats` error
is discarded by the code, so a persistence failure there is not fatal: the
run completes with `ResetDetected`, exit status zero, leaving the old
baseline on disk — the claim "every persistence failure is fatal on every
state-writing path" fails at this concrete input. -/
theorem C6_reset_path_save_failure_not_fatal :
    (SendMonthlyNetStats (some { month := "2025-04", rx := 100, tx := 100 })
        5 5 "2025-04" false).outcome ≠ .fatal
  ∧ SendMonthlyNetStats (some { month := "2025-04", rx := 100, tx := 100 })
        5 5 "2025-04" false =
      { outcome := .done .resetDetected,
        finalState := some { month := "2025-04", rx := 100, tx := 100 },
        notified := false } := by
  decide

/-- C6 (amended): a persistence failure is fatal (non-zero exit, no
notification, nothing newly persisted) on the first-run and rollover
write paths; on the counter-reset write path the error is ignored: the
run completes successfully with `ResetDetected`, still without notifying,
and the old state stays on disk. -/
theorem C6_persistence_failure_paths :
    (∀ rx tx : Int, ∀ m : String, m ≠ "" →
      SendMonthlyNetStats none rx tx m false =
        { outcome := .fatal, finalState := none, notified := false })
  ∧ (∀ p : Stats, ∀ rx tx : Int, ∀ m : String, p.month ≠ m →
      SendMonthlyNetStats (some p) rx tx m false =
        { outcome := .fatal, finalState := some p, notified := false })
  ∧ (∀ p : Stats, ∀ rx tx : Int, ∀ m : String, p.month = m →
      (rx < p.rx ∨ tx < p.tx) →
      SendMonthlyNetStats (some p) rx tx m false =
        { outcome := .done .resetDetected, finalState := some p,
          notified := false }) := by
  refine ⟨fun rx tx m hm => run_first_fail rx tx m hm,
    fun p rx tx m hm => run_rollover_fail p rx tx m hm,
    fun p rx tx m hm hlt => ?_⟩
  rw [run_reset p rx tx m false hm hlt]
  simp

/-- Witness for C6 on all three write paths at concrete inputs. -/
theorem C6_persistence_failure_paths_witness :
    SendMonthlyNetStats none 1 2 "2025-10" false =
      { outcome := .fatal, finalState := none, notified := false }
  ∧ SendMonthlyNetStats (some { month := "2025-09", rx := 1, tx := 2 })
        3 4 "2025-10" false =
      { outcome := .fatal,
        finalState := some { month := "2025-09", rx := 1, tx := 2 },
        notified := false }
  ∧ SendMonthlyNetStats (some { month := "2025-10", rx := 50, tx := 60 })
        5 60 "2025-10" false =
      { outcome := .done .resetDetected,
        finalState := some { month := "2025-10", rx := 50, tx := 60 },
        notified := false } :=
  ⟨C6_persistence_failure_paths.1 1 2 "2025-10" (by decide),
   C6_persistence_failure_paths.2.1 { month := "2025-09", rx := 1, tx := 2 }
     3 4 "2025-10" (by decide),
   C6_persistence_failure_paths.2.2 { month := "2025-10", rx := 50, tx := 60 }
     5 60 "2025-10" rfl (Or.inl (by decide))⟩

/-- C8: the state persisted by a rollover or counter-reset run is the
snapshot with the current period, and re-running the engine on that state
with the same unchanged snapshot and the same period yields
`Report 0 0 0`. -/
theorem C8_rerun_after_rebaseline_reports_zero (p : Stats) (rx tx : Int)
    (m : String)
    (h : p.month ≠ m ∨ (p.month = m ∧ (rx < p.rx ∨ tx < p.tx))) :
    (SendMonthlyNetStats (some p) rx tx m true).finalState =
      some { month := m, rx := rx, tx := tx }
  ∧ SendMonthlyNetStats (some { month := m, rx := rx, tx := tx })
        rx tx m true =
      { outcome := .done (.report 0 0 0),
        finalState := some { month := m, rx := rx, tx := tx },
        notified := true } := by
  constructor
  · rcases h with hroll | ⟨hm, hlt⟩
    · rw [run_rollover_ok p rx tx m hroll]
    · rw [run_reset p rx tx m true hm hlt]
      simp
  · have h2 := run_normal { month := m, rx := rx, tx := tx } rx tx m true
      rfl le_rfl le_rfl
    simpa using h2

/-- Witness for C8: a reset run followed by a re-run with the unchanged
snapshot. -/
theorem C8_rerun_after_rebaseline_reports_zero_witness :
    (SendMonthlyNetStats (some { month := "2025-11", rx := 500, tx := 500 })
        20 30 "2025-11" true).finalState =
      some { month := "2025-11", rx := 20, tx := 30 }
  ∧ SendMonthlyNetStats (some { month := "2025-11", rx := 20, tx := 30 })
        20 30 "2025-11" true =
      { outcome := .done (.report 0 0 0),
        finalState := some { month := "2025-11", rx := 20, tx := 30 },
        notified := true } :=
  C8_rerun_after_rebaseline_reports_zero
    { month := "2025-11", rx := 500, tx := 500 } 20 30 "2025-11"
    (Or.inr ⟨rfl, Or.inl (by decide)⟩)

/-- C9: on the normal path (same period, baseline at or below the
snapshot) the report is exactly the integer differences:
usedRX = snapshot.rx - baseline.rx, usedTX = snapshot.tx - baseline.tx,
usedTotal = usedRX + usedTX, all non-negative, in exact (arbitrary
precision) integer arithmetic. -/
theorem C9_normal_report_exact_deltas (p : Stats) (rx tx : Int) (m : String)
    (hm : p.month = m) (hr : p.rx ≤ rx) (ht : p.tx ≤ tx) :
    SendMonthlyNetStats (some p) rx tx m true =
      { outcome := .done (.report (rx - p.rx) (tx - p.tx)
          ((rx - p.rx) + (tx - p.tx))),
        finalState := some p,
        notified := true }
  ∧ 0 ≤ rx - p.rx ∧ 0 ≤ tx - p.tx :=
  ⟨run_normal p rx tx m true hm hr ht,
   sub_nonneg.mpr hr, sub_nonneg.mpr ht⟩

/-- Witness for C9 at the design document's scenario: baseline
(1000, 500), snapshot (1500, 800) in the same period gives the report
(500, 300, 800). -/
theorem C9_normal_report_exact_deltas_witness :
    SendMonthlyNetStats (some { month := "2025-05", rx := 1000, tx := 500 })
        1500 800 "2025-05" true =
      { outcome := .done (.report 500 300 800),
        finalState := some { month := "2025-05", rx := 1000, tx := 500 },
        notified := true } :=
  ((C9_normal_report_exact_deltas { month := "2025-05", rx := 1000, tx := 500 }
      1500 800 "2025-05" rfl (by decide) (by decide)).1).trans (by decide)

/-- C7: the byte formatter ladder: every non-negative count below 1024
keeps unit B; 1023 gives "1023.00 B", 1024 gives "1.00 KB", 1024 to the
fifth gives "1.00 PB", and 1024 to the sixth still reports in PB as
"1024.00 PB"; in general every count of at least 1024 to the fifth is
reported in PB (the value divided by 1024 five times), never a unit
beyond PB. -/
theorem C7_formatBytes_ladder :
    (∀ n : Int, 0 ≤ n → n < 1024 → formatBytes n = formatFixed2 (n : ℚ) ++ " B")
  ∧ formatBytes 1023 = "1023.00 B"
  ∧ formatBytes 1024 = "1.00 KB"
  ∧ formatBytes (1024 ^ 5) = "1.00 PB"
  ∧ formatBytes (1024 ^ 6) = "1024.00 PB"
  ∧ (∀ n : Int, 1024 ^ 5 ≤ n →
      formatBytes n = formatFixed2 ((n : ℚ) / 1024 ^ 5) ++ " PB") := by
  have hb : ∀ n : Int, 0 ≤ n → n < 1024 →
      formatBytes n = formatFixed2 (n : ℚ) ++ " B" := by
    intro n _ hn
    exact formatBytes_lt1024 n (by exact_mod_cast hn)
  have hpb : ∀ n : Int, 1024 ^ 5 ≤ n →
      formatBytes n = formatFixed2 ((n : ℚ) / 1024 ^ 5) ++ " PB" := by
    intro n hn
    exact formatBytes_pb n (by exact_mod_cast hn)
  refine ⟨hb, ?_, ?_, ?_, ?_, hpb⟩
  · rw [hb 1023 (by norm_num) (by norm_num), formatFixed2_int 1023]
    decide
  · simp only [formatBytes, fmtUnits, formatBytesLoop]
    rw [if_neg (by norm_num : ¬ ((1024 : Int) : ℚ) < 1024)]
    rw [show ((1024 : Int) : ℚ) / 1024 = ((1 : Int) : ℚ) by norm_num]
    rw [if_pos (by norm_num : ((1 : Int) : ℚ) < 1024), formatFixed2_int 1]
    decide
  · rw [hpb (1024 ^ 5) le_rfl,
      show (((1024 : Int) ^ 5 : Int) : ℚ) / 1024 ^ 5 = ((1 : Int) : ℚ) by
        push_cast; norm_num,
      formatFixed2_int 1]
    decide
  · rw [hpb (1024 ^ 6) (by norm_num),
      show (((1024 : Int) ^ 6 : Int) : ℚ) / 1024 ^ 5 = ((1024 : Int) : ℚ) by
        push_cast
        rw [div_eq_iff (by norm_num : (1024 : ℚ) ^ 5 ≠ 0)]
        norm_num,
      formatFixed2_int 1024]
    decide

/-- Witness for C7 at concrete inputs in the B range and beyond the PB
threshold. -/
theorem C7_formatBytes_ladder_witness :
    formatBytes 500 = formatFixed2 ((500 : Int) : ℚ) ++ " B"
  ∧ formatBytes (3 * 1024 ^ 5) =
      formatFixed2 (((3 * 1024 ^ 5 : Int) : ℚ) / 1024 ^ 5) ++ " PB" :=
  ⟨C7_formatBytes_ladder.1 500 (by decide) (by decide),
   C7_formatBytes_ladder.2.2.2.2.2 (3 * 1024 ^ 5) (by norm_num)⟩

/-- C10: the counter source returns the rx/tx fields parsed from the
first line that contains the requested interface name as a substring and
has at least 10 whitespace-separated fields; it returns the not-found
error exactly when no line qualifies; and a line of a differently-named
interface containing the requested name as a substring is read instead of
the intended one when it comes first. -/
theorem C10_substring_first_match (name : String) (lines : List String) :
    (readNetworkBytes name lines =
      (match lines.find? (lineQualifies name) with
       | some l => parseNetLine l
       | none => .error .notFound))
  ∧ (readNetworkBytes name lines = .error .notFound ↔
      ∀ l ∈ lines, lineQualifies name l = false)
  ∧ readNetworkBytes "eth1"
      ["eth10: 111 0 0 0 0 0 0 0 222 0", " eth1: 5 0 0 0 0 0 0 0 7 0"] =
      .ok (111, 222) := by
  refine ⟨readNetworkBytes_eq_find name lines, ?_, by decide⟩
  rw [readNetworkBytes_eq_find name lines]
  rcases hf : lines.find? (lineQualifies name) with _ | l
  · simp only [hf]
    rw [List.find?_eq_none] at hf
    constructor
    · intro _ l hl
      exact Bool.not_eq_true _ |>.mp (hf l hl)
    · intro _
      trivial
  · simp only [hf]
    constructor
    · intro hcontra
      exact absurd hcontra (parseNetLine_ne_notFound l)
    · intro hall
      have hmem := List.mem_of_find?_eq_some hf
      have hq := List.find?_some hf
      rw [hall l hmem] at hq
      cases hq

/-- Witness for C10 at a concrete file content. -/
theorem C10_substring_first_match_witness :
    readNetworkBytes "eth0" ["lo: 1 0 0 0 0 0 0 0 2 0", "eth0: 9 0 0 0 0 0 0 0 8 0"] =
      .ok (9, 8) := by
  have h := (C10_substring_first_match "eth0"
    ["lo: 1 0 0 0 0 0 0 0 2 0", "eth0: 9 0 0 0 0 0 0 0 8 0"]).1
  rw [h]
  decide

end TrafficChecker
